import Mathlib

/-!
# Verification of the Harmonic History Timeline validator

A shallow embedding, in Lean 4, of the two source files of the repository:

* `normalization.py` — the forgiving normalization layer (alias tables,
  case-insensitive fallback, dash normalization, wave-id prefix stripping);
* `scripts/validator.py` — the cross-table validation engine (per-row checks
  for the events, aspects and waves tables, and the reference-catalog load).

Strings are modelled as Lean `String` (lists of Unicode characters), Python
floats as exact unreduced fractions `PFloat` (the numeric strings appearing
in the data are all exactly representable; `PFloat.val` maps into `ℚ`), and
the builtin `float(str)` / `int(str)` conversions as explicit decimal
parsers returning `Option PFloat` / `Option Int` (`inf`/`nan` and
underscore separators are outside the modelled fragment).
Diagnostic messages appended to the `problems` / `warnings` lists are
modelled by the inductive type `Diag`, one constructor per `append` site of
`validator.py`, carrying the interpolated data of the corresponding f-string.
-/

set_option autoImplicit false

/-! ## Python string primitives -/

/-- Whitespace as matched by Python's `\s` and stripped by `str.strip()`,
restricted to the ASCII whitespace characters (the data contains no exotic
Unicode whitespace). -/
def isPyWs (c : Char) : Bool :=
  c = ' ' || c = '\t' || c = '\n' || c = '\r' || c = '\x0b' || c = '\x0c'

/-- `str.strip()` on a character list: drop leading and trailing whitespace. -/
def stripChars (l : List Char) : List Char :=
  ((l.dropWhile isPyWs).reverse.dropWhile isPyWs).reverse

/-- `str.strip()`. -/
def pyStrip (s : String) : String := ⟨stripChars s.data⟩

/-- `str.lower()`; the values in play are ASCII (plus the en dash, which is
unaffected), where Python's `lower` is the per-character ASCII lowering. -/
def pyLower (s : String) : String := ⟨s.data.map Char.toLower⟩

/-! ## Python numeric conversions -/

/-- Value of a digit string (most significant first); used below only on
lists already known to consist of digits. -/
def natOfDigits (l : List Char) : Nat :=
  l.foldl (fun a c => a * 10 + (c.toNat - 48)) 0

/-- `int(str)` applied to the part after the optional sign: a non-empty
run of digits and nothing else. -/
def digitsToNat : List Char → Option Nat
  | [] => none
  | l => if l.all Char.isDigit then some (natOfDigits l) else none

/-- Python `int(str)`: optional surrounding whitespace, optional sign,
then a non-empty digit run. -/
def parseIntChars (l : List Char) : Option Int :=
  match stripChars l with
  | '+' :: rest => (digitsToNat rest).map Int.ofNat
  | '-' :: rest => (digitsToNat rest).map (fun n => -(n : Int))
  | rest => (digitsToNat rest).map Int.ofNat

/-- Python `int(str)` on a `String`. -/
def parseInt (s : String) : Option Int := parseIntChars s.data

/-- An exact model for the Python float values that occur in this program:
a (not necessarily reduced) fraction `num / den`.  The decimal strings in
the data are all exactly representable.  We do not reduce fractions
(Mathlib's `ℚ` arithmetic is irreducible to the kernel); value-level
comparison is by cross-multiplication and `val` maps into `ℚ`. -/
structure PFloat where
  num : Int
  den : Nat
  deriving DecidableEq, Repr

/-- The rational value of a `PFloat`. -/
def PFloat.val (q : PFloat) : ℚ := (q.num : ℚ) / (q.den : ℚ)

/-- Python `>` on floats (cross-multiplication; denominators produced by the
parser are always positive powers of ten). -/
def PFloat.gt (a b : PFloat) : Bool := a.num * (b.den : Int) > b.num * (a.den : Int)

/-- Python `≤` on floats. -/
def PFloat.le (a b : PFloat) : Bool := a.num * (b.den : Int) ≤ b.num * (a.den : Int)

/-- Python `<` against an integer constant. -/
def PFloat.ltInt (a : PFloat) (k : Int) : Bool := a.num < k * (a.den : Int)

/-- Python `≤` by an integer constant on the left. -/
def PFloat.geInt (a : PFloat) (k : Int) : Bool := k * (a.den : Int) ≤ a.num

/-- The float of an integer. -/
def PFloat.ofInt (k : Int) : PFloat := ⟨k, 1⟩

/-- Python `int(float)`: truncation toward zero. -/
def PFloat.trunc (q : PFloat) : Int :=
  if q.num < 0 then -(Int.ofNat (q.num.natAbs / q.den)) else Int.ofNat (q.num.natAbs / q.den)

/-- Exponent part of a float literal: optional sign then non-empty digits. -/
def parseExpPart : List Char → Option Int
  | [] => none
  | '+' :: r => (digitsToNat r).map Int.ofNat
  | '-' :: r => (digitsToNat r).map (fun n => -(n : Int))
  | l => (digitsToNat l).map Int.ofNat

/-- Scale a mantissa by `10^k`. -/
def applyExp (m : PFloat) : Int → PFloat
  | .ofNat n => ⟨m.num * (10 : Int) ^ n, m.den⟩
  | .negSucc n => ⟨m.num, m.den * 10 ^ (n + 1)⟩

/-- Mantissa of a float literal: `digits`, `digits.digits`, `digits.` or
`.digits` (at least one digit overall); returns its value and the unread
remainder of the input. -/
def parseMantissa (l : List Char) : Option (PFloat × List Char) :=
  let ip := l.takeWhile Char.isDigit
  let r1 := l.dropWhile Char.isDigit
  match r1 with
  | '.' :: r2 =>
    let fp := r2.takeWhile Char.isDigit
    let r3 := r2.dropWhile Char.isDigit
    if ip.isEmpty && fp.isEmpty then none
    else some (⟨natOfDigits ip * (10 : Int) ^ fp.length + natOfDigits fp, 10 ^ fp.length⟩, r3)
  | _ => if ip.isEmpty then none else some (⟨natOfDigits ip, 1⟩, r1)

/-- Unsigned float literal: mantissa, optionally followed by `e`/`E` and an
exponent, consuming the whole input. -/
def parseFloatCore (l : List Char) : Option PFloat :=
  match parseMantissa l with
  | none => none
  | some (m, rest) =>
    match rest with
    | [] => some m
    | c :: r =>
      if c = 'e' ∨ c = 'E' then (parseExpPart r).map (applyExp m) else none

/-- Negation. -/
def PFloat.neg (q : PFloat) : PFloat := ⟨-q.num, q.den⟩

/-- Python `float(str)`: optional surrounding whitespace, optional sign,
then a decimal literal with optional fraction and exponent. -/
def pyFloat (s : String) : Option PFloat :=
  match stripChars s.data with
  | '+' :: r => parseFloatCore r
  | '-' :: r => (parseFloatCore r).map PFloat.neg
  | l => parseFloatCore l

/-! ## `normalization.py` — the forgiving normalization layer -/

/-- The canonical en dash U+2013 (`EN_DASH` in `normalization.py`). -/
def EN_DASH : Char := Char.ofNat 0x2013

/-- The character class of `DASH_RX`: figure dash U+2012, en dash U+2013,
em dash U+2014, minus sign U+2212 and the ASCII hyphen-minus. -/
def dashChars : List Char :=
  [Char.ofNat 0x2012, Char.ofNat 0x2013, Char.ofNat 0x2014, Char.ofNat 0x2212, '-']

/-- `DASH_RX.sub(EN_DASH, s)`: replace every dash-like character by the
canonical en dash. -/
def mapDashes (l : List Char) : List Char :=
  l.map (fun c => if dashChars.contains c then EN_DASH else c)

/-- The global substitution `re.sub(r"\s*" + EN_DASH + r"\s*", EN_DASH, out)`:
every run of whitespace adjacent to an en dash is deleted.  `pending` holds
whitespace read but not yet emitted; `afterDash` records whether that
whitespace immediately follows an en dash (in which case it is dropped
whatever comes next). -/
def tightenGo (pending : List Char) (afterDash : Bool) : List Char → List Char
  | [] => if afterDash then [] else pending
  | c :: cs =>
    if c = EN_DASH then EN_DASH :: tightenGo [] true cs
    else if isPyWs c then tightenGo (pending ++ [c]) afterDash cs
    else (if afterDash then [] else pending) ++ c :: tightenGo [] false cs

/-- Whitespace tightening around en dashes (see `tightenGo`). -/
def tightenDash (l : List Char) : List Char := tightenGo [] false l

/-- `re.sub(r"\s+", " ", out)`: collapse every whitespace run to one space. -/
def collapseWs : List Char → List Char
  | [] => []
  | [c] => [if isPyWs c then ' ' else c]
  | c :: c2 :: cs =>
    if isPyWs c && isPyWs c2 then collapseWs (c2 :: cs)
    else (if isPyWs c then ' ' else c) :: collapseWs (c2 :: cs)

/-- The character-list core of `normalize_dashes`. -/
def normDashCore (l : List Char) : List Char :=
  stripChars (collapseWs (tightenDash (mapDashes l)))

/-- `normalize_dashes(s)` of `normalization.py`. -/
def normalize_dashes (s : String) : String :=
  if s = "" then s else ⟨normDashCore s.data⟩

/-- A single-quote character, used by the advisory f-strings. -/
def sQuote : String := "\x27"

/-- Wrap a value in single quotes, as the advisory f-strings do. -/
def quoteS (s : String) : String := sQuote ++ s ++ sQuote

/-- Advisory text `f"cycle_key normalized '{raw}' -> '{canon}'"`. -/
def cycleMsg (raw canon : String) : String :=
  "cycle_key normalized " ++ quoteS raw ++ " -> " ++ quoteS canon

/-- The dictionary comprehension `{c.lower(): c for c in canonical_set}`
followed by `.get(key)`: on duplicate lowered keys the last entry wins, so
look backwards through the list. -/
def lowerMapLookup (canonical : List String) (key : String) : Option String :=
  canonical.reverse.find? (fun c => pyLower c = key)

/-- `canonical_cycle(value, canonical_set)` of `normalization.py`.  The
canonical set (a Python `set`) is modelled as the list of its elements. -/
def canonical_cycle (value : String) (canonical : List String) : String × List String :=
  let norm := normalize_dashes value
  if canonical.contains norm then
    (norm, if norm ≠ value then [cycleMsg value norm] else [])
  else
    match lowerMapLookup canonical (pyLower norm) with
    | some canon => (canon, if canon ≠ value then [cycleMsg value canon] else [])
    | none => (value, [])

/-- `CATEGORY_ALIASES` of `normalization.py`. -/
def CATEGORY_ALIASES : List (String × String) :=
  [("econ", "Economy/Finance"), ("economy", "Economy/Finance"),
   ("finance", "Economy/Finance"), ("health", "Public Health"),
   ("tech", "Science/Tech"), ("science", "Science/Tech"),
   ("culture", "Culture/Society"), ("society", "Culture/Society"),
   ("env", "Environment"), ("environmental", "Environment"),
   ("geo", "Geopolitics"), ("politics", "Geopolitics")]

/-- `ASPECT_ALIASES` of `normalization.py`. -/
def ASPECT_ALIASES : List (String × String) :=
  [("conj", "conjunction"), ("opp", "opposition"), ("square", "square"),
   ("sq", "square"), ("tri", "trine"), ("tr", "trine"), ("sext", "sextile"),
   ("quin", "quincunx"), ("quinc", "quincunx"), ("quincunx", "quincunx")]

/-- `SIGN_ALIASES` of `normalization.py`. -/
def SIGN_ALIASES : List (String × String) :=
  [("ar", "Aries"), ("ta", "Taurus"), ("ge", "Gemini"), ("cn", "Cancer"),
   ("le", "Leo"), ("vi", "Virgo"), ("li", "Libra"), ("sc", "Scorpio"),
   ("sg", "Sagittarius"), ("cp", "Capricorn"), ("aq", "Aquarius"), ("pi", "Pisces"),
   ("aries", "Aries"), ("taurus", "Taurus"), ("gemini", "Gemini"), ("cancer", "Cancer"),
   ("leo", "Leo"), ("virgo", "Virgo"), ("libra", "Libra"), ("scorpio", "Scorpio"),
   ("sagittarius", "Sagittarius"), ("capricorn", "Capricorn"),
   ("aquarius", "Aquarius"), ("pisces", "Pisces")]

/-- `PLANET_ALIASES` of `normalization.py`. -/
def PLANET_ALIASES : List (String × String) :=
  [("sun", "Sun"), ("moon", "Moon"),
   ("mer", "Mercury"), ("merc", "Mercury"), ("mercury", "Mercury"),
   ("ven", "Venus"), ("venus", "Venus"),
   ("mar", "Mars"), ("mars", "Mars"),
   ("jup", "Jupiter"), ("jupiter", "Jupiter"),
   ("sat", "Saturn"), ("saturn", "Saturn"),
   ("ura", "Uranus"), ("uranus", "Uranus"),
   ("nep", "Neptune"), ("neptune", "Neptune"),
   ("plu", "Pluto"), ("pluto", "Pluto"),
   ("nn", "North Node"), ("north node", "North Node"),
   ("sn", "South Node"), ("south node", "South Node")]

/-- Advisory text `f"category alias '{raw}' -> '{alias}'"`. -/
def categoryAliasMsg (raw al : String) : String :=
  "category alias " ++ quoteS raw ++ " -> " ++ quoteS al

/-- Advisory text `f"category case-normalized '{raw}' -> '{c}'"`. -/
def categoryCaseMsg (raw c : String) : String :=
  "category case-normalized " ++ quoteS raw ++ " -> " ++ quoteS c

/-- `normalize_category(raw, canonical_set)` of `normalization.py`. -/
def normalize_category (raw : String) (canonical : List String) : String × List String :=
  if raw = "" then (raw, [])
  else
    let key := pyStrip raw
    match CATEGORY_ALIASES.lookup (pyLower key) with
    | some al => (al, [categoryAliasMsg raw al])
    | none =>
      match canonical.find? (fun c => pyLower key = pyLower c) with
      | some c => (c, if key ≠ c then [categoryCaseMsg raw c] else [])
      | none => (key, [])

/-- Advisory text `f"aspect alias '{raw}' -> '{alias}'"`. -/
def aspectAliasMsg (raw al : String) : String :=
  "aspect alias " ++ quoteS raw ++ " -> " ++ quoteS al

/-- Advisory text `f"aspect case-normalized '{raw}' -> '{a}'"`. -/
def aspectCaseMsg (raw a : String) : String :=
  "aspect case-normalized " ++ quoteS raw ++ " -> " ++ quoteS a

/-- `normalize_aspect(raw, canonical_set)` of `normalization.py`.  Note that
the key is lowered up front, the case advisory compares `raw` (not the
stripped key) with the canonical form, and the fall-through returns `raw`
itself. -/
def normalize_aspect (raw : String) (canonical : List String) : String × List String :=
  if raw = "" then (raw, [])
  else
    let key := pyLower (pyStrip raw)
    match ASPECT_ALIASES.lookup key with
    | some al => (al, [aspectAliasMsg raw al])
    | none =>
      match canonical.find? (fun a => key = pyLower a) with
      | some a => (a, if raw ≠ a then [aspectCaseMsg raw a] else [])
      | none => (raw, [])

/-- Advisory text `f"sign alias '{raw}' -> '{alias}'"`. -/
def signAliasMsg (raw al : String) : String :=
  "sign alias " ++ quoteS raw ++ " -> " ++ quoteS al

/-- Advisory text `f"sign case-normalized '{raw}' -> '{s}'"`. -/
def signCaseMsg (raw s : String) : String :=
  "sign case-normalized " ++ quoteS raw ++ " -> " ++ quoteS s

/-- `normalize_sign(raw, canonical_set)` of `normalization.py`. -/
def normalize_sign (raw : String) (canonical : List String) : String × List String :=
  if raw = "" then (raw, [])
  else
    let key := pyStrip raw
    match SIGN_ALIASES.lookup (pyLower key) with
    | some al => (al, [signAliasMsg raw al])
    | none =>
      match canonical.find? (fun s => pyLower key = pyLower s) with
      | some s => (s, if key ≠ s then [signCaseMsg raw s] else [])
      | none => (key, [])

/-- Advisory text `f"planet alias '{raw}' -> '{alias}'"`. -/
def planetAliasMsg (raw al : String) : String :=
  "planet alias " ++ quoteS raw ++ " -> " ++ quoteS al

/-- Advisory text `f"planet case-normalized '{raw}' -> '{p}'"`. -/
def planetCaseMsg (raw p : String) : String :=
  "planet case-normalized " ++ quoteS raw ++ " -> " ++ quoteS p

/-- `normalize_planet(raw, canonical_set)` of `normalization.py`. -/
def normalize_planet (raw : String) (canonical : List String) : String × List String :=
  if raw = "" then (raw, [])
  else
    let key := pyStrip raw
    match PLANET_ALIASES.lookup (pyLower key) with
    | some al => (al, [planetAliasMsg raw al])
    | none =>
      match canonical.find? (fun p => pyLower key = pyLower p) with
      | some p => (p, if key ≠ p then [planetCaseMsg raw p] else [])
      | none => (key, [])

/-- Case-insensitive literal prefix match: returns the remainder when the
(lower-case) pattern is a prefix of the input under ASCII lowering. -/
def dropCaselessPre : List Char → List Char → Option (List Char)
  | [], l => some l
  | _ :: _, [] => none
  | p :: ps, c :: cs => if c.toLower = p then dropCaselessPre ps cs else none

/-- The regex `^\s*(?:wave\s*)?(\d{1,2})\s*$` (flag `re.I`) of
`normalize_wave_id`: optional whitespace, an optional case-insensitive
literal `wave` with optional following whitespace, one or two digits, and
optional trailing whitespace; returns the digit group.  When the `wave`
prefix is present but no digits follow, the regex backtracks to the
group-absent alternative, which then also fails on the letter `w`, so
taking the prefix greedily is equivalent. -/
def waveIdMatch (l : List Char) : Option (List Char) :=
  let l1 := l.dropWhile isPyWs
  let l2 := match dropCaselessPre ['w', 'a', 'v', 'e'] l1 with
            | some r => r.dropWhile isPyWs
            | none => l1
  let ds := l2.takeWhile Char.isDigit
  let rest := l2.dropWhile Char.isDigit
  if (ds.length = 1 || ds.length = 2) && rest.all isPyWs then some ds else none

/-- Advisory text `f"wave_id normalized '{raw}' -> '{num}'"`. -/
def waveIdMsg (raw num : String) : String :=
  "wave_id normalized " ++ quoteS raw ++ " -> " ++ quoteS num

/-- `normalize_wave_id(raw)` of `normalization.py`. -/
def normalize_wave_id (raw : String) : String × List String :=
  if raw = "" then (raw, [])
  else
    match waveIdMatch raw.data with
    | some num =>
      let numS : String := ⟨num⟩
      (numS, if pyStrip raw ≠ numS then [waveIdMsg raw numS] else [])
    | none => (raw, [])

/-! ## `scripts/validator.py` — date check and reference catalog -/

/-- Python `s.split("-")` on a character list. -/
def splitOnDash : List Char → List (List Char)
  | [] => [[]]
  | c :: cs =>
    match splitOnDash cs with
    | [] => [[c]]
    | g :: gs => if c = '-' then [] :: g :: gs else (c :: g) :: gs

/-- `is_iso_date(s)` of `validator.py`: empty strings are rejected, the
string must split on `-` into exactly three components of widths 4/2/2,
all three must convert with `int()`, and month and day must lie in
`[1, 12]` and `[1, 31]`. -/
def is_iso_date (s : String) : Bool :=
  if s = "" then false
  else
    match splitOnDash s.data with
    | [y, m, d] =>
      if y.length = 4 && m.length = 2 && d.length = 2 then
        match parseIntChars y, parseIntChars m, parseIntChars d with
        | some _, some mi, some di => 1 ≤ mi && mi ≤ 12 && 1 ≤ di && di ≤ 31
        | _, _, _ => false
      else false
    | _ => false

/-- Modelled from the spec: the date well-formedness contract of §4.3 —
"a literal ISO calendar date string must have exactly three dash-separated
components of width 4/2/2, each numeric, month in [1,12], day in [1,31]"
(numeric meaning convertible by Python `int()`). -/
def isoDateSpecModel (s : String) : Bool :=
  match splitOnDash s.data with
  | [y, m, d] =>
    y.length = 4 && m.length = 2 && d.length = 2 &&
    (parseIntChars y).isSome &&
    (match parseIntChars m with | some mi => 1 ≤ mi && mi ≤ 12 | none => false) &&
    (match parseIntChars d with | some di => 1 ≤ di && di ≤ 31 | none => false)
  | _ => false

/-- A JSON scalar, as far as the catalog's `rules` mapping needs one. -/
inductive JVal where
  | s (v : String)
  | n (q : PFloat)
  | b (v : Bool)
  | null
  deriving DecidableEq, Repr

/-- Python `float(x)` applied to a JSON scalar: numbers pass through,
strings are parsed, booleans coerce to 0/1, `None` raises (`none`). -/
def coerceFloat : JVal → Option PFloat
  | .s v => pyFloat v
  | .n q => some q
  | .b v => some ⟨if v then 1 else 0, 1⟩
  | .null => none

/-- Python truthiness of a JSON scalar. -/
def jTruthy : JVal → Bool
  | .s v => v ≠ ""
  | .n q => q.num ≠ 0
  | .b v => v
  | .null => false

/-- One value of the catalog's `waves` mapping: the optional `name` and
`anchors` entries of the wave's JSON object. -/
structure WaveDefJ where
  name : Option String
  anchors : Option (List Int)
  deriving DecidableEq, Repr

/-- Python `dict.get` on an association list built by JSON object parsing /
dict assignment: on duplicate keys the last binding wins. -/
def dictGet {α : Type} (l : List (String × α)) (k : String) : Option α :=
  (l.reverse.find? (fun p => p.1 = k)).map Prod.snd

/-- The reference document as `json.load` hands it to `main()`: each
top-level key may be absent (`none`).  A `rules` value that is present but
falsy is normalised to `{}` by `ref.get("rules", {}) or {}`, which the
`Option` already covers for the cases in play. -/
structure RefDoc where
  signs : Option (List String)
  planets : Option (List String)
  aspects : Option (List String)
  cycles : Option (List String)
  categories : Option (List String)
  waves : Option (List (String × WaveDefJ))
  rules : Option (List (String × JVal))
  deriving DecidableEq, Repr

/-- The catalog data `main()` actually works from after lines 51–66 of
`validator.py` (Python sets are modelled as lists of their elements). -/
structure Catalog where
  signs : List String
  planets : List String
  aspects : List String
  cycles : List String
  categories : List String
  waves : List (String × WaveDefJ)
  rules : List (String × JVal)
  orb_limit : PFloat
  deriving DecidableEq, Repr

/-- Lines 51–61 of `validator.py`: every absent top-level key silently
defaults (`ref.get(key, default)`), and the only failing step is
`float(rules.get("orb_deg_exact_window", 1.0))`, an uncaught
`ValueError`/`TypeError` when the present value cannot be coerced. -/
def loadCatalog (doc : RefDoc) : Except String Catalog :=
  let rules := doc.rules.getD []
  match coerceFloat ((dictGet rules "orb_deg_exact_window").getD (JVal.n ⟨1, 1⟩)) with
  | none => .error "orb_deg_exact_window not coercible to float"
  | some orb =>
    .ok { signs := doc.signs.getD [], planets := doc.planets.getD [],
          aspects := doc.aspects.getD [], cycles := doc.cycles.getD [],
          categories := doc.categories.getD [], waves := doc.waves.getD [],
          rules := rules, orb_limit := orb }

/-- Whether catalog loading aborts the run. -/
def loadFails (doc : RefDoc) : Bool :=
  match loadCatalog doc with
  | .error _ => true
  | .ok _ => false

/-- The reference document with every top-level key absent. -/
def emptyRefDoc : RefDoc := ⟨none, none, none, none, none, none, none⟩

/-- `require_cycle_key_for_aspects`: `rules.get(..., False)` with Python
truthiness. -/
def requireCycleKey (rules : List (String × JVal)) : Bool :=
  match dictGet rules "require_cycle_key_for_aspects" with
  | some v => jTruthy v
  | none => false

/-! ## `scripts/validator.py` — diagnostics and per-row checks

Every `problems.append` / `warnings.append` site of the events, aspects and
waves loops of `main()` gets one `Diag` constructor carrying the values its
f-string interpolates (`line` is the 1-based file line, starting at 2). -/

/-- One diagnostic message of `validator.py`. -/
inductive Diag where
  | evMissingId (line : Nat)
  | evDupId (line : Nat) (eid : String)
  | evBadDate (line : Nat) (date : String)
  | evBadCategory (line : Nat) (raw norm : String)
  | evNormWarn (line : Nat) (msg : String)
  | asMissingId (line : Nat)
  | asDupId (line : Nat) (aid : String)
  | asDanglingEvent (line : Nat) (eid : String)
  | asBadDate (line : Nat) (date : String)
  | asNormWarn (line : Nat) (msg : String)
  | asPlanetNotInRef (line : Nat)
  | asAspectNotInRef (line : Nat) (raw norm : String)
  | asSignNotInRef (line : Nat)
  | asOrbWarn (line : Nat) (orb limit : PFloat)
  | asOrbNotFloat (line : Nat) (orb : String)
  | asDegOutOfRange (line : Nat)
  | asDegNotFloat (line : Nat)
  | asMissingCycle (line : Nat)
  | asBadCycle (line : Nat) (raw norm : String)
  | wvMissingId (line : Nat)
  | wvDupId (line : Nat) (wtag : String)
  | wvDanglingEvent (line : Nat) (eid : String)
  | wvNormWarn (line : Nat) (msg : String)
  | wvWaveIdNotInt (line : Nat) (raw : String)
  | wvAnchorDegNotInt (line : Nat) (raw : String)
  | wvWaveIdUnknown (line : Nat) (wid : String)
  | wvWaveNameMismatch (line : Nat) (got expected wid : String)
  | wvAnchorDegInvalid (line : Nat) (anchor : Int) (wid : String) (valid : List Int)
  | wvAnchorSignBad (line : Nat) (sign : String)
  deriving DecidableEq, Repr

/-- One `events.csv` row (raw field strings, as `row.get(k, "") or ""`). -/
structure EventRow where
  event_id : String
  date : String
  category : String
  deriving DecidableEq, Repr

/-- One `aspects.csv` row. -/
structure AspectRow where
  aspect_id : String
  event_id : String
  date : String
  planet_a : String
  planet_b : String
  aspect : String
  sign_a : String
  sign_b : String
  orb_deg : String
  cycle_key : String
  deg_a : String
  deg_b : String
  deriving DecidableEq, Repr

/-- One `waves.csv` row. -/
structure WaveRow where
  wave_tag_id : String
  event_id : String
  wave_id : String
  wave_name : String
  anchor_deg : String
  anchor_sign : String
  deriving DecidableEq, Repr

/-! ### Events loop (lines 90–112) -/

/-- Seen-set update for a primary identifier: the first non-empty,
not-yet-seen occurrence is added; everything else leaves the set alone. -/
def seenUpdate (seen : List String) (pk : String) : List String :=
  if pk = "" then seen
  else if seen.contains pk then seen
  else seen ++ [pk]

/-- Identifier problems for the events row. -/
def evIdProbs (seen : List String) (line : Nat) (eid : String) : List Diag :=
  if eid = "" then [.evMissingId line]
  else if seen.contains eid then [.evDupId line eid]
  else []

/-- Date problem for the events row (unconditional check). -/
def evDateProbs (line : Nat) (date : String) : List Diag :=
  if is_iso_date date then [] else [.evBadDate line date]

/-- Category problems for the events row (`if cat_raw:` guard). -/
def evCatProbs (cats : List String) (line : Nat) (catRaw : String) : List Diag :=
  if catRaw = "" then []
  else
    let catOk := (normalize_category catRaw cats).1
    if cats.contains catOk then [] else [.evBadCategory line catRaw catOk]

/-- Category normalization advisories for the events row. -/
def evCatWarns (cats : List String) (line : Nat) (catRaw : String) : List Diag :=
  if catRaw = "" then []
  else (normalize_category catRaw cats).2.map (.evNormWarn line)

/-- One iteration of the events loop: new seen set, problems, warnings. -/
def checkEventRow (cats : List String) (seen : List String) (line : Nat)
    (row : EventRow) : List String × List Diag × List Diag :=
  let eid := pyStrip row.event_id
  let date := pyStrip row.date
  let catRaw := pyStrip row.category
  (seenUpdate seen eid,
   evIdProbs seen line eid ++ evDateProbs line date ++ evCatProbs cats line catRaw,
   evCatWarns cats line catRaw)

/-- The whole events loop from a given seen set and line number. -/
def processEventsAux (cats : List String) :
    List String → Nat → List EventRow → List String × List Diag × List Diag
  | seen, _, [] => (seen, [], [])
  | seen, line, r :: rs =>
    let out := checkEventRow cats seen line r
    let rest := processEventsAux cats out.1 (line + 1) rs
    (rest.1, out.2.1 ++ rest.2.1, out.2.2 ++ rest.2.2)

/-- The events loop of `main()` (`enumerate(events, start=2)`). -/
def processEvents (cats : List String) (rows : List EventRow) :
    List String × List Diag × List Diag :=
  processEventsAux cats [] 2 rows

/-! ### Aspects loop (lines 116–192) -/

/-- Identifier problems for the aspects row. -/
def asIdProbs (seen : List String) (line : Nat) (aid : String) : List Diag :=
  if aid = "" then [.asMissingId line]
  else if seen.contains aid then [.asDupId line aid]
  else []

/-- Foreign-key problem: `if eid and eid not in seen_event_ids`. -/
def asFkProbs (seenEvents : List String) (line : Nat) (eid : String) : List Diag :=
  if eid ≠ "" && !seenEvents.contains eid then [.asDanglingEvent line eid] else []

/-- Date problem for the aspects row. -/
def asDateProbs (line : Nat) (date : String) : List Diag :=
  if is_iso_date date then [] else [.asBadDate line date]

/-- Planet membership problem (one message for the pair). -/
def asPlanetProbs (planets : List String) (line : Nat) (pa pb : String) : List Diag :=
  let paOk := (normalize_planet pa planets).1
  let pbOk := (normalize_planet pb planets).1
  if !planets.contains paOk || !planets.contains pbOk then [.asPlanetNotInRef line] else []

/-- Planet normalization advisories (`w1 + w2`). -/
def asPlanetWarns (planets : List String) (line : Nat) (pa pb : String) : List Diag :=
  ((normalize_planet pa planets).2 ++ (normalize_planet pb planets).2).map (.asNormWarn line)

/-- Aspect-type membership problem. -/
def asAspectProbs (aspects : List String) (line : Nat) (aspRaw : String) : List Diag :=
  let aspOk := (normalize_aspect aspRaw aspects).1
  if aspects.contains aspOk then [] else [.asAspectNotInRef line aspRaw aspOk]

/-- Aspect-type normalization advisories. -/
def asAspectWarns (aspects : List String) (line : Nat) (aspRaw : String) : List Diag :=
  (normalize_aspect aspRaw aspects).2.map (.asNormWarn line)

/-- Sign membership problem (one message for the pair). -/
def asSignProbs (signs : List String) (line : Nat) (sa sb : String) : List Diag :=
  let saOk := (normalize_sign sa signs).1
  let sbOk := (normalize_sign sb signs).1
  if !signs.contains saOk || !signs.contains sbOk then [.asSignNotInRef line] else []

/-- Sign normalization advisories (`w4 + w5`). -/
def asSignWarns (signs : List String) (line : Nat) (sa sb : String) : List Diag :=
  ((normalize_sign sa signs).2 ++ (normalize_sign sb signs).2).map (.asNormWarn line)

/-- Lines 166–172, the orb check: `float(orb)` failing is a problem, a
parsed value above `orb_limit` is a warning. Returns (problems, warnings). -/
def orbCheck (limit : PFloat) (line : Nat) (orb : String) : List Diag × List Diag :=
  match pyFloat orb with
  | some v => ([], if v.gt limit then [.asOrbWarn line v limit] else [])
  | none => ([.asOrbNotFloat line orb], [])

/-- Lines 174–181, the degree sanity check: both `deg_a` and `deg_b` must
parse as floats in `[0, 30)`. -/
def degProbs (line : Nat) (degA degB : String) : List Diag :=
  match pyFloat degA, pyFloat degB with
  | some da, some db =>
    if !(da.geInt 0 && da.ltInt 30 && db.geInt 0 && db.ltInt 30)
    then [.asDegOutOfRange line] else []
  | _, _ => [.asDegNotFloat line]

/-- Lines 183–192, cycle-key requirement and membership. -/
def cycleProbs (cycles : List String) (require : Bool) (line : Nat) (cyc : String) : List Diag :=
  if cyc = "" && require then [.asMissingCycle line]
  else if cyc ≠ "" then
    let cycOk := (canonical_cycle cyc cycles).1
    if cycles.contains cycOk then [] else [.asBadCycle line cyc cycOk]
  else []

/-- Cycle-key normalization advisories. -/
def cycleWarns (cycles : List String) (line : Nat) (cyc : String) : List Diag :=
  if cyc ≠ "" then (canonical_cycle cyc cycles).2.map (.asNormWarn line) else []

/-- One iteration of the aspects loop: new seen-aspect-id set, problems,
warnings, in the order the Python code appends them. -/
def checkAspectRow (cat : Catalog) (seenEvents seenAspects : List String)
    (line : Nat) (row : AspectRow) : List String × List Diag × List Diag :=
  let aid := pyStrip row.aspect_id
  let eid := pyStrip row.event_id
  let date := pyStrip row.date
  let pa := pyStrip row.planet_a
  let pb := pyStrip row.planet_b
  let asp := pyStrip row.aspect
  let sa := pyStrip row.sign_a
  let sb := pyStrip row.sign_b
  let orb := pyStrip row.orb_deg
  let cyc := pyStrip row.cycle_key
  let dga := pyStrip row.deg_a
  let dgb := pyStrip row.deg_b
  (seenUpdate seenAspects aid,
   asIdProbs seenAspects line aid ++ asFkProbs seenEvents line eid ++
     asDateProbs line date ++ asPlanetProbs cat.planets line pa pb ++
     asAspectProbs cat.aspects line asp ++ asSignProbs cat.signs line sa sb ++
     (orbCheck cat.orb_limit line orb).1 ++ degProbs line dga dgb ++
     cycleProbs cat.cycles (requireCycleKey cat.rules) line cyc,
   asPlanetWarns cat.planets line pa pb ++ asAspectWarns cat.aspects line asp ++
     asSignWarns cat.signs line sa sb ++ (orbCheck cat.orb_limit line orb).2 ++
     cycleWarns cat.cycles line cyc)

/-! ### Waves loop (lines 196–256) -/

/-- Identifier problems for the waves row. -/
def wvIdProbs (seen : List String) (line : Nat) (wtag : String) : List Diag :=
  if wtag = "" then [.wvMissingId line]
  else if seen.contains wtag then [.wvDupId line wtag]
  else []

/-- Foreign-key problem for the waves row. -/
def wvFkProbs (seenEvents : List String) (line : Nat) (eid : String) : List Diag :=
  if eid ≠ "" && !seenEvents.contains eid then [.wvDanglingEvent line eid] else []

/-- Wave-id normalization advisories (`w7`). -/
def wvIdWarns (line : Nat) (waveIdRaw : String) : List Diag :=
  (normalize_wave_id waveIdRaw).2.map (.wvNormWarn line)

/-- `wave_id_int = int(wave_id_ok)`, problem on failure. -/
def wvIntProbs (line : Nat) (waveIdRaw waveIdOk : String) : List Diag :=
  if parseInt waveIdOk = none then [.wvWaveIdNotInt line waveIdRaw] else []

/-- `anchor_deg_int = int(float(anchor_deg_raw))`. -/
def anchorInt (raw : String) : Option Int := (pyFloat raw).map PFloat.trunc

/-- Problem when `anchor_deg` is not integer-ish. -/
def wvAnchorIntProbs (line : Nat) (anchorRaw : String) : List Diag :=
  if anchorInt anchorRaw = none then [.wvAnchorDegNotInt line anchorRaw] else []

/-- Insertion of an integer into a sorted list (for `sorted(list(...))`). -/
def insertSorted (x : Int) : List Int → List Int
  | [] => [x]
  | y :: ys => if x ≤ y then x :: y :: ys else y :: insertSorted x ys

/-- `sorted(list(set(l)))`: deduplicate and sort ascending. -/
def sortedSet (l : List Int) : List Int := l.dedup.foldr insertSorted []

/-- `wave_name` mismatch problem inside the cross-check. -/
def wvNameProbs (line : Nat) (waveName expected waveIdOk : String) : List Diag :=
  if waveName ≠ "" && waveName ≠ expected
  then [.wvWaveNameMismatch line waveName expected waveIdOk] else []

/-- Anchor-validity problem inside the cross-check (`if anchor_deg_int is
not None`). -/
def wvAnchorValidProbs (line : Nat) (anchorOpt : Option Int) (anchors : List Int)
    (waveIdOk : String) : List Diag :=
  match anchorOpt with
  | none => []
  | some a =>
    if !anchors.contains a then [.wvAnchorDegInvalid line a waveIdOk (sortedSet anchors)]
    else []

/-- Lines 232–250, the wave cross-check: only runs when `wave_id_int`
parsed; `waves_ref.get(str(wave_id_int))` must yield a non-falsy dict
(`if not wave_def` also fires on the empty JSON object, i.e. both fields
absent). -/
def wvCrossProbs (wavesRef : List (String × WaveDefJ)) (line : Nat)
    (waveIdOk waveName : String) (anchorOpt : Option Int) : List Diag :=
  match parseInt waveIdOk with
  | none => []
  | some wid =>
    match dictGet wavesRef (toString wid) with
    | none => [.wvWaveIdUnknown line waveIdOk]
    | some wdef =>
      if wdef.name = none && wdef.anchors = none then [.wvWaveIdUnknown line waveIdOk]
      else
        wvNameProbs line waveName (pyStrip (wdef.name.getD "")) waveIdOk ++
          wvAnchorValidProbs line anchorOpt (wdef.anchors.getD []) waveIdOk

/-- Lines 252–256: `anchor_sign` is flagged only when it is non-empty,
contains no slash, and is not a member of the signs set. -/
def anchorSignCheck (signs : List String) (line : Nat) (asn : String) : List Diag :=
  if asn ≠ "" && !asn.data.contains '/' && !signs.contains asn
  then [.wvAnchorSignBad line asn] else []

/-- One iteration of the waves loop. -/
def checkWaveRow (cat : Catalog) (seenEvents seenTags : List String)
    (line : Nat) (row : WaveRow) : List String × List Diag × List Diag :=
  let wtag := pyStrip row.wave_tag_id
  let eid := pyStrip row.event_id
  let waveIdRaw := pyStrip row.wave_id
  let waveName := pyStrip row.wave_name
  let anchorRaw := pyStrip row.anchor_deg
  let asn := pyStrip row.anchor_sign
  let waveIdOk := (normalize_wave_id waveIdRaw).1
  (seenUpdate seenTags wtag,
   wvIdProbs seenTags line wtag ++ wvFkProbs seenEvents line eid ++
     wvIntProbs line waveIdRaw waveIdOk ++ wvAnchorIntProbs line anchorRaw ++
     wvCrossProbs cat.waves line waveIdOk waveName (anchorInt anchorRaw) ++
     anchorSignCheck cat.signs line asn,
   wvIdWarns line waveIdRaw)

/-! ## Canonical enumerations

`reference.json` lives in the repository's `data/` directory and is not part
of the source under analysis, so the canonical sets are modelled from the
spec (§3 and the glossary); every statement that depends on them names them
explicitly. -/

/-- Modelled from the spec: `reference.json` is missing; §3 fixes `signs` as
the 12-element ordered set of zodiac signs. -/
def canonicalSigns : List String :=
  ["Aries", "Taurus", "Gemini", "Cancer", "Leo", "Virgo", "Libra", "Scorpio",
   "Sagittarius", "Capricorn", "Aquarius", "Pisces"]

/-- Modelled from the spec: `reference.json` is missing; §3 describes
`planets` as a named set including the two lunar nodes, and the alias table
of `normalization.py` lists their canonical spellings. -/
def canonicalPlanets : List String :=
  ["Sun", "Moon", "Mercury", "Venus", "Mars", "Jupiter", "Saturn", "Uranus",
   "Neptune", "Pluto", "North Node", "South Node"]

/-- Modelled from the spec: `reference.json` is missing; §3 lists the aspect
names (conjunction/opposition/square/trine/sextile/quincunx). -/
def canonicalAspects : List String :=
  ["conjunction", "opposition", "square", "trine", "sextile", "quincunx"]

/-- Modelled from the spec: `reference.json` is missing; the canonical
categories are the alias targets of `CATEGORY_ALIASES`. -/
def canonicalCategories : List String :=
  ["Economy/Finance", "Public Health", "Science/Tech", "Culture/Society",
   "Environment", "Geopolitics"]

/-- Modelled from the spec: `reference.json` is missing; cycle keys are
"two planet names joined by a dash" (glossary), canonically with the en dash
(§4.2); a representative sample. -/
def canonicalCycles : List String :=
  ["Saturn–Pluto", "Jupiter–Saturn", "Uranus–Neptune", "Neptune–Pluto"]

/-- Canonical wave ids are bare numeral strings of one or two digits
(§4.2: wave-id normalization yields "a bare numeral string"). -/
def canonicalWaveIds : List String := (List.range 100).map (fun n => toString n)

/-! ## Diagnostic classifiers -/

/-- The `anchor_sign` problem of the waves loop. -/
def Diag.isAnchorSignBad : Diag → Bool
  | .wvAnchorSignBad _ _ => true
  | _ => false

/-- The orb problem (`orb_deg '...' not a float`) of the aspects loop. -/
def Diag.isOrbProblem : Diag → Bool
  | .asOrbNotFloat _ _ => true
  | _ => false

/-- The orb warning (`orb ... > limit ...`) of the aspects loop. -/
def Diag.isOrbWarning : Diag → Bool
  | .asOrbWarn _ _ _ => true
  | _ => false

/-- The dangling `event_id` problem of the aspects loop. -/
def Diag.isDangling : Diag → Bool
  | .asDanglingEvent _ _ => true
  | _ => false

/-- The two anchor-degree problems of the waves loop. -/
def Diag.isAnchorDegProb : Diag → Bool
  | .wvAnchorDegNotInt _ _ => true
  | .wvAnchorDegInvalid _ _ _ _ => true
  | _ => false

/-! ## Concrete fixtures used by the claim instances -/

/-- The catalog wave entry of the spec's wave-anchor test:
`{"3": {"name": "Test Wave", "anchors": [0, 15]}}`. -/
def testWaves : List (String × WaveDefJ) := [("3", ⟨some "Test Wave", some [0, 15]⟩)]

/-- A catalog holding `testWaves`, the 12 canonical signs, and the default
orb limit. -/
def testCat : Catalog := ⟨canonicalSigns, [], [], [], [], testWaves, [], ⟨1, 1⟩⟩

/-- The non-breaking hyphen U+2011. -/
def nbHyphen : Char := Char.ofNat 0x2011

/-- A reference document whose `rules.orb_deg_exact_window` is present but
not coercible to a number. -/
def badOrbDoc : RefDoc :=
  ⟨none, none, none, none, none, none, some [("orb_deg_exact_window", .s "abc")]⟩

/-! ## Helper lemmas

Diagnostic-filter lemmas locating each diagnostic kind inside the per-row
output, and monotonicity of the accumulated seen-identifier sets. -/

lemma filter_ite_singleton (p : Diag → Bool) (c : Prop) [Decidable c] (x : Diag)
    (hx : p x = false) : (if c then [x] else []).filter p = [] := by
  split <;> simp [List.filter_cons, hx]

lemma wvIdProbs_asb (s : List String) (l : Nat) (w : String) :
    (wvIdProbs s l w).filter Diag.isAnchorSignBad = [] := by
  unfold wvIdProbs; split
  · rfl
  · split <;> rfl

lemma wvFkProbs_asb (s : List String) (l : Nat) (e : String) :
    (wvFkProbs s l e).filter Diag.isAnchorSignBad = [] := by
  unfold wvFkProbs; split <;> rfl

lemma wvIntProbs_asb (l : Nat) (r o : String) :
    (wvIntProbs l r o).filter Diag.isAnchorSignBad = [] := by
  unfold wvIntProbs; split <;> rfl

lemma wvAnchorIntProbs_asb (l : Nat) (r : String) :
    (wvAnchorIntProbs l r).filter Diag.isAnchorSignBad = [] := by
  unfold wvAnchorIntProbs; split <;> rfl

lemma wvNameProbs_asb (l : Nat) (a b c : String) :
    (wvNameProbs l a b c).filter Diag.isAnchorSignBad = [] := by
  unfold wvNameProbs; split <;> rfl

lemma wvAnchorValidProbs_asb (l : Nat) (ao : Option Int) (an : List Int) (w : String) :
    (wvAnchorValidProbs l ao an w).filter Diag.isAnchorSignBad = [] := by
  rcases ao with _ | a
  · rfl
  · simp only [wvAnchorValidProbs]
    exact filter_ite_singleton _ _ _ rfl

lemma wvCrossProbs_asb (wr : List (String × WaveDefJ)) (l : Nat) (o n : String)
    (ao : Option Int) :
    (wvCrossProbs wr l o n ao).filter Diag.isAnchorSignBad = [] := by
  rcases hp : parseInt o with _ | wid
  · simp [wvCrossProbs, hp]
  · rcases hd : dictGet wr (toString wid) with _ | wdef
    · simp [wvCrossProbs, hp, hd, List.filter_cons, Diag.isAnchorSignBad]
    · simp only [wvCrossProbs, hp, hd]
      split
      · rfl
      · rw [List.filter_append, wvNameProbs_asb, wvAnchorValidProbs_asb]; rfl

lemma anchorSignCheck_asb (signs : List String) (l : Nat) (a : String) :
    (anchorSignCheck signs l a).filter Diag.isAnchorSignBad = anchorSignCheck signs l a := by
  unfold anchorSignCheck; split <;> rfl

lemma checkWaveRow_asb (cat : Catalog) (se st : List String) (l : Nat) (row : WaveRow) :
    (checkWaveRow cat se st l row).2.1.filter Diag.isAnchorSignBad
      = anchorSignCheck cat.signs l (pyStrip row.anchor_sign) := by
  unfold checkWaveRow
  simp only [List.filter_append, wvIdProbs_asb, wvFkProbs_asb, wvIntProbs_asb,
    wvAnchorIntProbs_asb, wvCrossProbs_asb, anchorSignCheck_asb, List.nil_append]

lemma normWarn_filter_ow (l : List String) (line : Nat) :
    (l.map (Diag.asNormWarn line)).filter Diag.isOrbWarning = [] := by
  induction l with
  | nil => rfl
  | cons x xs ih => simp [List.filter_cons, Diag.isOrbWarning, ih]

lemma asIdProbs_op (s : List String) (l : Nat) (a : String) :
    (asIdProbs s l a).filter Diag.isOrbProblem = [] := by
  unfold asIdProbs; split
  · rfl
  · split <;> rfl

lemma asFkProbs_op (s : List String) (l : Nat) (e : String) :
    (asFkProbs s l e).filter Diag.isOrbProblem = [] := by
  unfold asFkProbs; split <;> rfl

lemma asDateProbs_op (l : Nat) (d : String) :
    (asDateProbs l d).filter Diag.isOrbProblem = [] := by
  unfold asDateProbs; split <;> rfl

lemma filter_ite_nil_singleton (p : Diag → Bool) (c : Prop) [Decidable c] (x : Diag)
    (hx : p x = false) : (if c then [] else [x]).filter p = [] := by
  split <;> simp [List.filter_cons, hx]

lemma asPlanetProbs_op (ps : List String) (l : Nat) (a b : String) :
    (asPlanetProbs ps l a b).filter Diag.isOrbProblem = [] := by
  unfold asPlanetProbs; exact filter_ite_singleton _ _ _ rfl

lemma asAspectProbs_op (asps : List String) (l : Nat) (a : String) :
    (asAspectProbs asps l a).filter Diag.isOrbProblem = [] := by
  unfold asAspectProbs; exact filter_ite_nil_singleton _ _ _ rfl

lemma asSignProbs_op (ss : List String) (l : Nat) (a b : String) :
    (asSignProbs ss l a b).filter Diag.isOrbProblem = [] := by
  unfold asSignProbs; exact filter_ite_singleton _ _ _ rfl

lemma orbCheck_fst_op (lim : PFloat) (l : Nat) (o : String) :
    (orbCheck lim l o).1.filter Diag.isOrbProblem = (orbCheck lim l o).1 := by
  unfold orbCheck
  rcases pyFloat o with _ | v
  · rfl
  · rfl

lemma orbCheck_snd_ow (lim : PFloat) (l : Nat) (o : String) :
    (orbCheck lim l o).2.filter Diag.isOrbWarning = (orbCheck lim l o).2 := by
  unfold orbCheck
  rcases pyFloat o with _ | v
  · rfl
  · simp only []
    split <;> rfl

lemma degProbs_op (l : Nat) (a b : String) :
    (degProbs l a b).filter Diag.isOrbProblem = [] := by
  unfold degProbs
  rcases pyFloat a with _ | va <;> rcases pyFloat b with _ | vb <;>
    first
    | rfl
    | exact filter_ite_singleton _ _ _ rfl

lemma cycleProbs_op (cs : List String) (rq : Bool) (l : Nat) (c : String) :
    (cycleProbs cs rq l c).filter Diag.isOrbProblem = [] := by
  unfold cycleProbs; split
  · rfl
  · split
    · exact filter_ite_nil_singleton _ _ _ rfl
    · rfl

lemma cycleWarns_ow (cs : List String) (l : Nat) (c : String) :
    (cycleWarns cs l c).filter Diag.isOrbWarning = [] := by
  unfold cycleWarns; split
  · exact normWarn_filter_ow _ _
  · rfl

lemma checkAspectRow_op (cat : Catalog) (se sa : List String) (l : Nat) (row : AspectRow) :
    (checkAspectRow cat se sa l row).2.1.filter Diag.isOrbProblem
      = (orbCheck cat.orb_limit l (pyStrip row.orb_deg)).1 := by
  unfold checkAspectRow
  simp only [List.filter_append, asIdProbs_op, asFkProbs_op, asDateProbs_op,
    asPlanetProbs_op, asAspectProbs_op, asSignProbs_op, orbCheck_fst_op,
    degProbs_op, cycleProbs_op, List.nil_append, List.append_nil]

lemma checkAspectRow_ow (cat : Catalog) (se sa : List String) (l : Nat) (row : AspectRow) :
    (checkAspectRow cat se sa l row).2.2.filter Diag.isOrbWarning
      = (orbCheck cat.orb_limit l (pyStrip row.orb_deg)).2 := by
  unfold checkAspectRow
  unfold asPlanetWarns asAspectWarns asSignWarns
  simp only [List.filter_append, normWarn_filter_ow, orbCheck_snd_ow,
    cycleWarns_ow, List.map_append, List.nil_append, List.append_nil]

lemma asIdProbs_dg (s : List String) (l : Nat) (a : String) :
    (asIdProbs s l a).filter Diag.isDangling = [] := by
  unfold asIdProbs; split
  · rfl
  · split <;> rfl

lemma asFkProbs_dg (s : List String) (l : Nat) (e : String) :
    (asFkProbs s l e).filter Diag.isDangling = asFkProbs s l e := by
  unfold asFkProbs; split <;> rfl

lemma asDateProbs_dg (l : Nat) (d : String) :
    (asDateProbs l d).filter Diag.isDangling = [] := by
  unfold asDateProbs; split <;> rfl

lemma asPlanetProbs_dg (ps : List String) (l : Nat) (a b : String) :
    (asPlanetProbs ps l a b).filter Diag.isDangling = [] := by
  unfold asPlanetProbs; exact filter_ite_singleton _ _ _ rfl

lemma asAspectProbs_dg (asps : List String) (l : Nat) (a : String) :
    (asAspectProbs asps l a).filter Diag.isDangling = [] := by
  unfold asAspectProbs; exact filter_ite_nil_singleton _ _ _ rfl

lemma asSignProbs_dg (ss : List String) (l : Nat) (a b : String) :
    (asSignProbs ss l a b).filter Diag.isDangling = [] := by
  unfold asSignProbs; exact filter_ite_singleton _ _ _ rfl

lemma orbCheck_fst_dg (lim : PFloat) (l : Nat) (o : String) :
    (orbCheck lim l o).1.filter Diag.isDangling = [] := by
  unfold orbCheck
  rcases pyFloat o with _ | v <;> rfl

lemma degProbs_dg (l : Nat) (a b : String) :
    (degProbs l a b).filter Diag.isDangling = [] := by
  unfold degProbs
  rcases pyFloat a with _ | va <;> rcases pyFloat b with _ | vb <;>
    first
    | rfl
    | exact filter_ite_singleton _ _ _ rfl

lemma cycleProbs_dg (cs : List String) (rq : Bool) (l : Nat) (c : String) :
    (cycleProbs cs rq l c).filter Diag.isDangling = [] := by
  unfold cycleProbs; split
  · rfl
  · split
    · exact filter_ite_nil_singleton _ _ _ rfl
    · rfl

lemma checkAspectRow_dg (cat : Catalog) (se sa : List String) (l : Nat) (row : AspectRow) :
    (checkAspectRow cat se sa l row).2.1.filter Diag.isDangling
      = asFkProbs se l (pyStrip row.event_id) := by
  unfold checkAspectRow
  simp only [List.filter_append, asIdProbs_dg, asFkProbs_dg, asDateProbs_dg,
    asPlanetProbs_dg, asAspectProbs_dg, asSignProbs_dg, orbCheck_fst_dg,
    degProbs_dg, cycleProbs_dg, List.nil_append, List.append_nil]

lemma seenUpdate_mono (seen : List String) (pk e : String) (h : e ∈ seen) :
    e ∈ seenUpdate seen pk := by
  unfold seenUpdate; split
  · exact h
  · split
    · exact h
    · exact List.mem_append_left _ h

lemma seenUpdate_self (seen : List String) (pk : String) (h : pk ≠ "") :
    pk ∈ seenUpdate seen pk := by
  unfold seenUpdate
  rw [if_neg h]
  split
  · next hc => exact List.mem_of_elem_eq_true hc
  · exact List.mem_append_right _ (List.mem_singleton.mpr rfl)

lemma processEventsAux_seen_mono (cats : List String) (rows : List EventRow) :
    ∀ (seen : List String) (line : Nat) (e : String), e ∈ seen →
      e ∈ (processEventsAux cats seen line rows).1 := by
  induction rows with
  | nil => intro seen line e h; exact h
  | cons r rs ih =>
    intro seen line e h
    exact ih _ _ _ (seenUpdate_mono _ _ _ h)

lemma processEventsAux_seen_of_mem (cats : List String) (rows : List EventRow) :
    ∀ (seen : List String) (line : Nat) (r : EventRow), r ∈ rows →
      pyStrip r.event_id ≠ "" →
      pyStrip r.event_id ∈ (processEventsAux cats seen line rows).1 := by
  induction rows with
  | nil => intro _ _ _ h; exact absurd h (List.not_mem_nil _)
  | cons r0 rs ih =>
    intro seen line r hr hne
    rcases List.mem_cons.mp hr with h | h
    · subst h
      exact processEventsAux_seen_mono cats rs _ _ _ (seenUpdate_self _ _ hne)
    · exact ih _ _ _ h hne

/-! ## Claim theorems -/

/-- C5: with the catalog wave entry `{"3": {"name": "Test Wave", "anchors":
[0, 15]}}`, a waves row with `wave_id="Wave 3"` (prefix stripped to `3`) and
`anchor_deg="15.0"` (parsed as the integer part of a float) produces no
problem at all, while the same row with `anchor_deg="7"` produces exactly one
problem, the anchor-degree-not-valid message listing the valid set [0, 15]. -/
theorem C5_wave_anchor_enforcement :
    (normalize_wave_id "Wave 3").1 = "3" ∧
    anchorInt "15.0" = some 15 ∧
    (checkWaveRow testCat [] [] 2 ⟨"wt1", "", "Wave 3", "", "15.0", ""⟩).2.1 = [] ∧
    (checkWaveRow testCat [] [] 2 ⟨"wt1", "", "Wave 3", "", "7", ""⟩).2.1
      = [Diag.wvAnchorDegInvalid 2 7 "3" [0, 15]] :=
  ⟨by decide, by decide, by decide, by decide⟩

/-- C7: for every aspects row the orb-related problems and warnings are
exactly those of the orb check of lines 166–172; with the limit 1.0, an
`orb_deg` of `"1.5"` yields exactly one warning (value 1.5 > 1) and zero
orb problems — on a row whose other enum fields are empty it is the only
warning of the row — and `"abc"` yields exactly one orb problem and zero
warnings; a parsed orb value never yields a problem, so exceeding the
tolerance is never blocking. -/
theorem C7_orb_tolerance :
    (∀ (cat : Catalog) (se sa : List String) (line : Nat) (row : AspectRow),
        (checkAspectRow cat se sa line row).2.1.filter Diag.isOrbProblem
          = (orbCheck cat.orb_limit line (pyStrip row.orb_deg)).1 ∧
        (checkAspectRow cat se sa line row).2.2.filter Diag.isOrbWarning
          = (orbCheck cat.orb_limit line (pyStrip row.orb_deg)).2) ∧
    orbCheck ⟨1, 1⟩ 2 "1.5" = ([], [Diag.asOrbWarn 2 ⟨15, 10⟩ ⟨1, 1⟩]) ∧
    PFloat.val ⟨15, 10⟩ = 3 / 2 ∧
    orbCheck ⟨1, 1⟩ 2 "abc" = ([Diag.asOrbNotFloat 2 "abc"], []) ∧
    (checkAspectRow testCat [] []
        2 ⟨"a1", "", "2020-01-01", "", "", "", "", "", "1.5", "", "0", "0"⟩).2.2
      = [Diag.asOrbWarn 2 ⟨15, 10⟩ ⟨1, 1⟩] ∧
    (checkAspectRow testCat [] []
        2 ⟨"a1", "", "2020-01-01", "", "", "", "", "", "abc", "", "0", "0"⟩).2.2 = [] ∧
    (∀ (lim : PFloat) (line : Nat) (orb : String) (v : PFloat),
        pyFloat orb = some v → (orbCheck lim line orb).1 = []) := by
  refine ⟨fun cat se sa line row => ⟨checkAspectRow_op .., checkAspectRow_ow ..⟩,
    by decide, by norm_num [PFloat.val], by decide, by decide, by decide, ?_⟩
  intro lim line orb v h
  unfold orbCheck
  rw [h]

/-- C7 witness: the no-problem part of C7 applied at the concrete parse
`pyFloat "1.5" = some (15/10)`. -/
theorem C7_witness : (orbCheck ⟨1, 1⟩ 2 "1.5").1 = [] :=
  C7_orb_tolerance.2.2.2.2.2.2 ⟨1, 1⟩ 2 "1.5" ⟨15, 10⟩ (by decide)

/-- C9 counterexample: `"-5.0"` parses as the negative float -5, yet the
orb check emits neither a problem nor a warning for it — the claimed
non-negativity constraint is not enforced anywhere. -/
theorem C9_counterexample :
    pyFloat "-5.0" = some ⟨-50, 10⟩ ∧
    PFloat.val ⟨-50, 10⟩ = -5 ∧
    orbCheck ⟨1, 1⟩ 2 "-5.0" = ([], []) ∧
    (checkAspectRow testCat [] []
        2 ⟨"a1", "", "2020-01-01", "", "", "", "", "", "-5.0", "", "0", "0"⟩).2.1.filter
      Diag.isOrbProblem = [] :=
  ⟨by decide, by norm_num [PFloat.val], by decide, by decide⟩

/-- C9 (amended): `orb_deg` is checked only for float-parseability; any
value that parses — in particular any negative float — yields no problem,
and its only possible diagnostic is the above-tolerance warning. -/
theorem C9_orb_sign_unchecked :
    (∀ (lim : PFloat) (line : Nat) (orb : String) (v : PFloat), pyFloat orb = some v →
        (orbCheck lim line orb).1 = [] ∧
        (orbCheck lim line orb).2
          = if v.gt lim then [Diag.asOrbWarn line v lim] else []) ∧
    (∀ (cat : Catalog) (se sa : List String) (line : Nat) (row : AspectRow),
        (checkAspectRow cat se sa line row).2.1.filter Diag.isOrbProblem
          = (orbCheck cat.orb_limit line (pyStrip row.orb_deg)).1) := by
  refine ⟨?_, fun cat se sa line row => checkAspectRow_op ..⟩
  intro lim line orb v h
  unfold orbCheck
  rw [h]
  exact ⟨rfl, rfl⟩

/-- C9 witness: the amended theorem applied at the concrete negative orb
`"-5.0"`. -/
theorem C9_witness : (orbCheck ⟨1, 1⟩ 2 "-5.0").1 = [] :=
  (C9_orb_sign_unchecked.1 ⟨1, 1⟩ 2 "-5.0" ⟨-50, 10⟩ (by decide)).1

/-- C10: the seen-event-id set collects every non-empty (stripped)
`event_id` of the events table regardless of whether its row fails the date
or category checks, and an aspects row whose `event_id` is in that set
yields no dangling-foreign-key problem. -/
theorem C10_event_ids_always_collected :
    (∀ (cats : List String) (rows : List EventRow) (r : EventRow),
        r ∈ rows → pyStrip r.event_id ≠ "" →
        pyStrip r.event_id ∈ (processEvents cats rows).1) ∧
    (∀ (cat : Catalog) (se sa : List String) (line : Nat) (row : AspectRow),
        pyStrip row.event_id ∈ se →
        (checkAspectRow cat se sa line row).2.1.filter Diag.isDangling = []) := by
  constructor
  · intro cats rows r hr hne
    exact processEventsAux_seen_of_mem cats rows [] 2 r hr hne
  · intro cat se sa line row hmem
    rw [checkAspectRow_dg]
    have hc : se.contains (pyStrip row.event_id) = true :=
      List.elem_eq_true_of_mem hmem
    simp only [asFkProbs, hc, Bool.not_true, Bool.and_false]
    rfl

/-- C10 witness: an event row with a malformed date and an unresolvable
category still contributes `"E1"`, and an aspects row referencing `"E1"`
raises no dangling-foreign-key problem. -/
theorem C10_witness :
    pyStrip (EventRow.mk "E1" "not-a-date" "junk").event_id
      ∈ (processEvents canonicalCategories [⟨"E1", "not-a-date", "junk"⟩]).1 ∧
    (checkAspectRow testCat ["E1"] []
        3 ⟨"a1", "E1", "2020-01-01", "", "", "", "", "", "0.5", "", "0", "0"⟩).2.1.filter
      Diag.isDangling = [] :=
  ⟨C10_event_ids_always_collected.1 canonicalCategories [⟨"E1", "not-a-date", "junk"⟩]
      ⟨"E1", "not-a-date", "junk"⟩ (by decide) (by decide),
   C10_event_ids_always_collected.2 testCat ["E1"] [] 3
      ⟨"a1", "E1", "2020-01-01", "", "", "", "", "", "0.5", "", "0", "0"⟩ (by decide)⟩

/-- C2 counterexample: the reference document with every top-level key
absent — `signs` included — loads successfully into the all-defaults
catalog instead of failing, contradicting the claim that absent required
keys abort the run. -/
theorem C2_counterexample :
    emptyRefDoc.signs = none ∧ emptyRefDoc.rules = none ∧
    loadCatalog emptyRefDoc = .ok ⟨[], [], [], [], [], [], [], ⟨1, 1⟩⟩ ∧
    loadFails emptyRefDoc = false :=
  ⟨rfl, rfl, rfl, rfl⟩

/-- C2 (amended): catalog loading fails exactly when the
`orb_deg_exact_window` entry of `rules` is present but not coercible to a
float (an uncaught exception — no `MalformedCatalog` error type exists);
every absent top-level key silently defaults. -/
theorem C2_load_failure_characterized :
    (∀ doc : RefDoc,
        loadFails doc = true ↔
          coerceFloat ((dictGet (doc.rules.getD []) "orb_deg_exact_window").getD
            (JVal.n ⟨1, 1⟩)) = none) ∧
    loadFails badOrbDoc = true := by
  refine ⟨?_, by decide⟩
  intro doc
  cases h : coerceFloat ((dictGet (doc.rules.getD []) "orb_deg_exact_window").getD
      (JVal.n ⟨1, 1⟩)) with
  | none => simp [loadFails, loadCatalog, h]
  | some q => simp [loadFails, loadCatalog, h]

/-- C1 counterexample: `"Aries"` is canonical (a member of the canonical
sign set, canonically cased), yet `normalize_sign` returns it together with
one alias advisory, not an empty advisory list, because `SIGN_ALIASES` maps
the lowercase of every canonical sign to itself. -/
theorem C1_counterexample :
    "Aries" ∈ canonicalSigns ∧
    normalize_sign "Aries" canonicalSigns = ("Aries", [signAliasMsg "Aries" "Aries"]) ∧
    (normalize_sign "Aries" canonicalSigns).2 ≠ [] :=
  ⟨by decide, by decide, by decide⟩

/-- C1 (amended): normalizing an already-canonical value returns the
value itself, and the advisory list is empty for categories, cycle keys and
wave ids; for signs and planets (all of them) and for the aspects `square`
and `quincunx`, whose lowercased form is a key of the alias table, exactly
one alias advisory is emitted instead of zero. -/
theorem C1_idempotence_amended :
    (∀ v ∈ canonicalCategories, normalize_category v canonicalCategories = (v, [])) ∧
    (∀ v ∈ canonicalCycles, canonical_cycle v canonicalCycles = (v, [])) ∧
    (∀ v ∈ canonicalWaveIds, normalize_wave_id v = (v, [])) ∧
    (∀ v ∈ canonicalSigns, normalize_sign v canonicalSigns = (v, [signAliasMsg v v])) ∧
    (∀ v ∈ canonicalPlanets,
        normalize_planet v canonicalPlanets = (v, [planetAliasMsg v v])) ∧
    (∀ v ∈ canonicalAspects,
        normalize_aspect v canonicalAspects
          = (v, if v = "square" ∨ v = "quincunx" then [aspectAliasMsg v v] else [])) :=
  ⟨by decide, by decide, by decide, by decide, by decide, by decide⟩

/-- C1 witness: the amended theorem applied at one member of each kind:
a category and a wave id (no advisory) and a sign (one alias advisory). -/
theorem C1_witness :
    normalize_category "Economy/Finance" canonicalCategories = ("Economy/Finance", []) ∧
    normalize_wave_id "9" = ("9", []) ∧
    normalize_sign "Scorpio" canonicalSigns = ("Scorpio", [signAliasMsg "Scorpio" "Scorpio"]) :=
  ⟨C1_idempotence_amended.1 "Economy/Finance" (by decide),
   C1_idempotence_amended.2.2.1 "9" (by decide),
   C1_idempotence_amended.2.2.2.1 "Scorpio" (by decide)⟩

/-- C3 counterexample: `"Foo/Bar"` is neither a canonical sign nor a
slash token of two canonical signs, yet the waves row carrying it as
`anchor_sign` is accepted with no problem, because the code only tests for
the presence of a slash. -/
theorem C3_counterexample :
    canonicalSigns.contains "Foo" = false ∧ canonicalSigns.contains "Bar" = false ∧
    canonicalSigns.contains "Foo/Bar" = false ∧
    (checkWaveRow testCat [] [] 2 ⟨"wt1", "", "3", "", "0", "Foo/Bar"⟩).2.1 = [] :=
  ⟨by decide, by decide, by decide, by decide⟩

/-- C3 (amended): the anchor-sign problems of a waves row are exactly
those of the check of lines 252–256, and a non-empty `anchor_sign` is
accepted precisely when it contains a slash anywhere (its parts are never
validated) or is itself a member of the signs set. -/
theorem C3_anchor_sign_rule :
    (∀ (cat : Catalog) (se st : List String) (line : Nat) (row : WaveRow),
        (checkWaveRow cat se st line row).2.1.filter Diag.isAnchorSignBad
          = anchorSignCheck cat.signs line (pyStrip row.anchor_sign)) ∧
    (∀ (signs : List String) (line : Nat) (asn : String), asn ≠ "" →
        (anchorSignCheck signs line asn = [] ↔
          '/' ∈ asn.data ∨ asn ∈ signs)) := by
  refine ⟨checkWaveRow_asb, ?_⟩
  intro signs line asn h
  by_cases hc : '/' ∈ asn.data <;> by_cases hm : asn ∈ signs <;>
    simp [anchorSignCheck, h, hc, hm]

/-- C3 witness: the acceptance rule applied at `"Virgo/Pisces"`, accepted
because it contains a slash. -/
theorem C3_witness : anchorSignCheck canonicalSigns 2 "Virgo/Pisces" = [] :=
  (C3_anchor_sign_rule.2 canonicalSigns 2 "Virgo/Pisces" (by decide)).mpr
    (Or.inl (by decide))

/-- C8 counterexample: `" zz "` is non-empty and matches neither the
category alias table nor (case-insensitively) any canonical category, yet
`normalize_category` returns the stripped `"zz"`, not the raw value
character for character. -/
theorem C8_counterexample :
    normalize_category " zz " canonicalCategories = ("zz", []) ∧
    (" zz " : String) ≠ "zz" ∧
    CATEGORY_ALIASES.lookup (pyLower (pyStrip " zz ")) = none ∧
    canonicalCategories.find? (fun c => pyLower (pyStrip " zz ") = pyLower c) = none :=
  ⟨by decide, by decide, by decide, by decide⟩

/-- C8 (amended): on a non-empty raw value that matches neither the alias
table nor (case-insensitively) the canonical set, aspect and wave-id
normalization return the raw value unchanged, cycle-key normalization
returns the raw value unchanged, and category, sign and planet
normalization return the whitespace-stripped raw value — all with no
advisories. -/
theorem C8_unmatched_fallthrough :
    (∀ (raw : String) (s : List String), raw ≠ "" →
        ASPECT_ALIASES.lookup (pyLower (pyStrip raw)) = none →
        s.find? (fun a => pyLower (pyStrip raw) = pyLower a) = none →
        normalize_aspect raw s = (raw, [])) ∧
    (∀ (raw : String), raw ≠ "" → waveIdMatch raw.data = none →
        normalize_wave_id raw = (raw, [])) ∧
    (∀ (raw : String) (s : List String),
        normalize_dashes raw ∉ s →
        lowerMapLookup s (pyLower (normalize_dashes raw)) = none →
        canonical_cycle raw s = (raw, [])) ∧
    (∀ (raw : String) (s : List String), raw ≠ "" →
        CATEGORY_ALIASES.lookup (pyLower (pyStrip raw)) = none →
        s.find? (fun c => pyLower (pyStrip raw) = pyLower c) = none →
        normalize_category raw s = (pyStrip raw, [])) ∧
    (∀ (raw : String) (s : List String), raw ≠ "" →
        SIGN_ALIASES.lookup (pyLower (pyStrip raw)) = none →
        s.find? (fun c => pyLower (pyStrip raw) = pyLower c) = none →
        normalize_sign raw s = (pyStrip raw, [])) ∧
    (∀ (raw : String) (s : List String), raw ≠ "" →
        PLANET_ALIASES.lookup (pyLower (pyStrip raw)) = none →
        s.find? (fun c => pyLower (pyStrip raw) = pyLower c) = none →
        normalize_planet raw s = (pyStrip raw, [])) := by
  refine ⟨?_, ?_, ?_, ?_, ?_, ?_⟩
  · intro raw s h1 h2 h3
    simp [normalize_aspect, h1, h2, h3]
  · intro raw h1 h2
    simp [normalize_wave_id, h1, h2]
  · intro raw s h1 h2
    simp [canonical_cycle, h1, h2]
  · intro raw s h1 h2 h3
    simp [normalize_category, h1, h2, h3]
  · intro raw s h1 h2 h3
    simp [normalize_sign, h1, h2, h3]
  · intro raw s h1 h2 h3
    simp [normalize_planet, h1, h2, h3]

/-- C8 witness: the fall-through cases applied at the unmatched raw value
`"xyzzy"`. -/
theorem C8_witness :
    normalize_category "xyzzy" canonicalCategories = ("xyzzy", []) ∧
    normalize_aspect "xyzzy" canonicalAspects = ("xyzzy", []) ∧
    canonical_cycle "xyzzy" canonicalCycles = ("xyzzy", []) :=
  ⟨C8_unmatched_fallthrough.2.2.2.1 "xyzzy" canonicalCategories (by decide) (by decide)
      (by decide),
   C8_unmatched_fallthrough.1 "xyzzy" canonicalAspects (by decide) (by decide) (by decide),
   C8_unmatched_fallthrough.2.2.1 "xyzzy" canonicalCycles (by decide) (by decide)⟩

lemma string_data_append (a b : String) : (a ++ b).data = a.data ++ b.data := rfl

lemma string_mk_ne_empty (x y : String) (c : Char) :
    x ++ (⟨[c]⟩ : String) ++ y ≠ "" := by
  intro h
  have h' : (x ++ (⟨[c]⟩ : String) ++ y).data = ("" : String).data := by rw [h]
  rw [string_data_append, string_data_append] at h'
  rw [show ("" : String).data = ([] : List Char) from rfl] at h'
  simp at h'

lemma mapDashes_variant (x y : List Char) (d : Char) (hd : d ∈ dashChars) :
    mapDashes (x ++ d :: y) = mapDashes (x ++ EN_DASH :: y) := by
  simp [mapDashes, List.map_append, hd, show EN_DASH ∈ dashChars by decide]

/-- C4 (amended): substituting any handled dash variant (hyphen-minus,
figure dash U+2012, en dash, em dash, minus sign U+2212) between two
strings normalizes to the same result as the en dash itself, and the
concrete variants joining Saturn and Pluto — with or without surrounding
whitespace — all normalize to the single en-dash-joined string. -/
theorem C4_dash_normalization :
    (∀ (x y : String) (d : Char), d ∈ dashChars →
        normalize_dashes (x ++ ⟨[d]⟩ ++ y) = normalize_dashes (x ++ ⟨[EN_DASH]⟩ ++ y)) ∧
    normalize_dashes "Saturn - Pluto" = ⟨"Saturn".data ++ [EN_DASH] ++ "Pluto".data⟩ ∧
    normalize_dashes ⟨"Saturn ".data ++ [Char.ofNat 0x2014] ++ " Pluto".data⟩
      = ⟨"Saturn".data ++ [EN_DASH] ++ "Pluto".data⟩ ∧
    normalize_dashes ⟨"Saturn".data ++ [Char.ofNat 0x2212] ++ "Pluto".data⟩
      = ⟨"Saturn".data ++ [EN_DASH] ++ "Pluto".data⟩ ∧
    normalize_dashes ⟨"Saturn".data ++ [Char.ofNat 0x2012] ++ "Pluto".data⟩
      = ⟨"Saturn".data ++ [EN_DASH] ++ "Pluto".data⟩ ∧
    normalize_dashes ⟨" Saturn ".data ++ [EN_DASH] ++ " Pluto ".data⟩
      = ⟨"Saturn".data ++ [EN_DASH] ++ "Pluto".data⟩ := by
  refine ⟨?_, by decide, by decide, by decide, by decide, by decide⟩
  intro x y d hd
  unfold normalize_dashes
  rw [if_neg (string_mk_ne_empty x y d), if_neg (string_mk_ne_empty x y EN_DASH)]
  have e1 : (x ++ (⟨[d]⟩ : String) ++ y).data = x.data ++ d :: y.data := by
    rw [string_data_append, string_data_append, List.append_assoc]; rfl
  have e2 : (x ++ (⟨[EN_DASH]⟩ : String) ++ y).data = x.data ++ EN_DASH :: y.data := by
    rw [string_data_append, string_data_append, List.append_assoc]; rfl
  unfold normDashCore
  rw [e1, e2, mapDashes_variant x.data y.data d hd]

/-- C4 counterexample: the non-breaking hyphen U+2011, which the claim
lists as a dash-like code point, is not in `DASH_RX` and passes through
`normalize_dashes` unchanged instead of becoming an en dash. -/
theorem C4_counterexample :
    normalize_dashes ⟨"Saturn".data ++ [nbHyphen] ++ "Pluto".data⟩
      = ⟨"Saturn".data ++ [nbHyphen] ++ "Pluto".data⟩ ∧
    (⟨"Saturn".data ++ [nbHyphen] ++ "Pluto".data⟩ : String)
      ≠ ⟨"Saturn".data ++ [EN_DASH] ++ "Pluto".data⟩ ∧
    nbHyphen ∉ dashChars :=
  ⟨by decide, by decide, by decide⟩

/-- C4 witness: the variant-independence part of C4 applied at the ASCII
hyphen between `"A"` and `"B"`. -/
theorem C4_witness :
    normalize_dashes ("A" ++ ⟨['-']⟩ ++ "B") = normalize_dashes ("A" ++ ⟨[EN_DASH]⟩ ++ "B") :=
  C4_dash_normalization.1 "A" "B" '-' (by decide)

lemma ite_bool_and (c x : Bool) : (if c = true then x else false) = (c && x) := by
  cases c <;> simp

/-- C6: `is_iso_date` accepts a string exactly when it splits on `-` into
three components of widths 4/2/2, each `int()`-convertible, with month in
[1, 12] and day in [1, 31]; in particular `"2024-02-30"` passes (no
per-month day-count validation) and `"2024-2-30"` fails. -/
theorem C6_iso_date_format :
    (∀ s : String, is_iso_date s = isoDateSpecModel s) ∧
    is_iso_date "2024-02-30" = true ∧ is_iso_date "2024-2-30" = false := by
  refine ⟨?_, by decide, by decide⟩
  intro s
  by_cases hs : s = ""
  · subst hs; rfl
  · unfold is_iso_date isoDateSpecModel
    rw [if_neg hs]
    rcases h : splitOnDash s.data with _ | ⟨y, _ | ⟨m, _ | ⟨d, _ | ⟨e, rest⟩⟩⟩⟩ <;> try rfl
    rcases hy : parseIntChars y with _ | yi <;>
      rcases hm : parseIntChars m with _ | mi <;>
        rcases hd : parseIntChars d with _ | di <;>
          simp [hy, hm, hd, ite_bool_and, Bool.and_assoc]
